import Mathlib

/-!
Verification development for the polymarket-paper-trading repository.

Shallow embedding of the position-lifecycle core:
  * `src/database.py` — the `Database` class (trade records in SQLite);
    the `trades` table becomes a list of `Trade` records, prices and money
    are rationals, timestamps are abstract naturals.
  * `src/bot.py` — the `PaperTradingBot` decision logic: `should_enter_trade`,
    `enter_trade`, `update_open_positions` and the entry/refresh part
    of `run_scan`.  Venue clients are modelled as a price oracle
    `Trade → Option ℚ` (the value `get_current_price` returns, `none`
    when no client matches or the fetch fails).

Module-level configuration (`src/config.py`) is passed explicitly as a
`Config` record; `config` below holds the literal values of `config.py`.
-/

/-- Trade status stored in the `status` column: `'OPEN'` or `'CLOSED'`. -/
inductive Status where
  | OPEN : Status
  | CLOSED : Status
deriving DecidableEq, Repr

/-- One row of the `trades` table (src/database.py, `init_db`).
`current_price`, `exit_time`, `exit_price`, `profit_loss`, `outcome`
and `notes` are nullable columns, hence `Option`; `fee_paid` has SQL
default 0.  `outcome` and `outcome_bet` are stored as TEXT, so they stay
strings here exactly as the code writes them ("WON" / "LOST", "YES"). -/
structure Trade where
  id : Nat
  market_id : String
  market_question : String
  market_source : String
  entry_time : Nat
  entry_price : ℚ
  position_size : ℚ
  current_price : Option ℚ
  status : Status
  exit_time : Option Nat
  exit_price : Option ℚ
  profit_loss : Option ℚ
  fee_paid : ℚ
  outcome : Option String
  outcome_bet : String
  notes : Option String
deriving DecidableEq, Repr

/-- The database state: the `trades` table plus the AUTOINCREMENT counter
for the next primary key. -/
structure DB where
  trades : List Trade
  next_id : Nat
deriving DecidableEq, Repr

/-- Values of `src/config.py` that the lifecycle core reads. -/
structure Config where
  POLYMARKET_FEE : ℚ
  POSITION_SIZE : ℚ
  MAX_POSITIONS : Nat
  MIN_LIQUIDITY : ℚ
  MIN_VOLUME_24H : ℚ
deriving DecidableEq, Repr

/-- The literal values in `src/config.py`. -/
def config : Config :=
  { POLYMARKET_FEE := 2 / 100
    POSITION_SIZE := 100
    MAX_POSITIONS := 10
    MIN_LIQUIDITY := 1000
    MIN_VOLUME_24H := 500 }

/-- `Database.add_trade` (src/database.py:61-77): INSERTs one new row with
status `'OPEN'`; note that the `current_price` column is populated with
`entry_price` (the VALUES tuple passes `entry_price` twice).  There is no
duplicate check of any kind.  Returns the new database and the rowid. -/
def add_trade (db : DB) (market_id market_question : String)
    (entry_price position_size : ℚ) (market_source outcome_bet : String)
    (now : Nat) : DB × Nat :=
  let t : Trade :=
    { id := db.next_id
      market_id := market_id
      market_question := market_question
      market_source := market_source
      entry_time := now
      entry_price := entry_price
      position_size := position_size
      current_price := some entry_price
      status := Status.OPEN
      exit_time := none
      exit_price := none
      profit_loss := none
      fee_paid := 0
      outcome := none
      outcome_bet := outcome_bet
      notes := none }
  ({ trades := db.trades ++ [t], next_id := db.next_id + 1 }, db.next_id)

/-- The row update performed by `update_trade_price`:
SET `current_price` WHERE `id = trade_id AND status = 'OPEN'`. -/
def updateRow (trade_id : Nat) (current_price : ℚ) (t : Trade) : Trade :=
  if t.id = trade_id ∧ t.status = Status.OPEN then
    { t with current_price := some current_price }
  else t

/-- `Database.update_trade_price` (src/database.py:79-91): UPDATE the
`current_price` of the row WHERE `id = trade_id AND status = 'OPEN'`. -/
def update_trade_price (db : DB) (trade_id : Nat) (current_price : ℚ) : DB :=
  { db with trades := db.trades.map (updateRow trade_id current_price) }

/-- The row update performed by `close_trade` once `profit_loss` and `fee`
have been computed: UPDATE ... WHERE `id = trade_id`, with no status
guard. -/
def closeRow (trade_id : Nat) (exit_price profit_loss fee : ℚ)
    (outcome notes : String) (now : Nat) (t : Trade) : Trade :=
  if t.id = trade_id then
    { t with
      status := Status.CLOSED
      exit_time := some now
      exit_price := some exit_price
      profit_loss := some profit_loss
      fee_paid := fee
      outcome := some outcome
      notes := some notes }
  else t

/-- The P&L block of `close_trade` (src/database.py:110-121): for `"WON"`,
`shares = position_size / entry_price`,
`gross_profit = shares * (exit_price - entry_price)`,
`fee = max(0, gross_profit * fee_rate)`, `profit_loss = gross_profit - fee`;
for any other outcome, `profit_loss = -position_size` and `fee = 0`.
Returns `(profit_loss, fee)`. -/
def settleAmounts (fee_rate entry_price position_size exit_price : ℚ)
    (outcome : String) : ℚ × ℚ :=
  if outcome = "WON" then
    let shares := position_size / entry_price
    let gross_profit := shares * (exit_price - entry_price)
    let fee := max 0 (gross_profit * fee_rate)
    (gross_profit - fee, fee)
  else
    (-position_size, 0)

/-- `Database.close_trade` (src/database.py:93-136), with the module global
`config.POLYMARKET_FEE` passed explicitly as `fee_rate`.  It SELECTs the
trade's `entry_price` and `position_size` (first row with that id; returns
unchanged when the id is unknown), computes P&L with `settleAmounts`, then
UPDATEs the row WHERE `id = trade_id` (the status is not checked). -/
def close_trade (fee_rate : ℚ) (db : DB) (trade_id : Nat) (exit_price : ℚ)
    (outcome : String) (notes : String) (now : Nat) : DB :=
  match db.trades.find? (fun t => t.id = trade_id) with
  | none => db
  | some t0 =>
    let plFee : ℚ × ℚ :=
      settleAmounts fee_rate t0.entry_price t0.position_size exit_price outcome
    { db with
      trades := db.trades.map
        (closeRow trade_id exit_price plFee.1 plFee.2 outcome notes now) }

/-- `Database.get_open_trades` (src/database.py:138-155): all rows with
`status = 'OPEN'`.  (The SQL `ORDER BY entry_time DESC` only reorders the
result; the callers in the core use it for membership and length only.) -/
def get_open_trades (db : DB) : List Trade :=
  db.trades.filter fun t => t.status = Status.OPEN

/-- Number of OPEN rows. -/
def openCount (db : DB) : Nat :=
  (get_open_trades db).length

/-- The record returned by `get_performance_stats`. -/
structure Stats where
  total_trades : Nat
  wins : Nat
  losses : Nat
  win_rate : ℚ
  total_pnl : ℚ
  total_fees : ℚ
  avg_profit : ℚ
  roi : ℚ
  fee_rate : ℚ
deriving DecidableEq, Repr

/-- Division that fails (like Python raising `ZeroDivisionError`) when the
denominator is zero. -/
def divChecked (a b : ℚ) : Option ℚ :=
  if b = 0 then none else some (a / b)

/-- `Database.get_performance_stats` (src/database.py:157-210), with the
module global `config.POLYMARKET_FEE` passed explicitly as `fee_rate`.
Every Python division is modelled with `divChecked`, so the result is
`none` exactly when the code would raise `ZeroDivisionError`.
`SUM(...) or 0` / `or 1` become the corresponding `if`-defaults: SQL `SUM`
ignores NULLs (here `Option.getD 0`) and yields NULL on an empty selection,
and Python's `or` replaces both `None` and `0` by the default. -/
def get_performance_stats (fee_rate : ℚ) (db : DB) : Option Stats :=
  let closed := db.trades.filter fun t => t.status = Status.CLOSED
  let total_trades := closed.length
  if total_trades = 0 then
    some
      { total_trades := 0, wins := 0, losses := 0, win_rate := 0
        total_pnl := 0, total_fees := 0, avg_profit := 0, roi := 0
        fee_rate := fee_rate * 100 }
  else
    let wins := (closed.filter fun t => t.outcome = some "WON").length
    let losses := (closed.filter fun t => t.outcome = some "LOST").length
    let total_pnl := (closed.map fun t => t.profit_loss.getD 0).sum
    let total_fees := (closed.map fun t => t.fee_paid).sum
    let sumInvested := (closed.map fun t => t.position_size).sum
    let total_invested := if sumInvested = 0 then 1 else sumInvested
    let win_rate? : Option ℚ :=
      if 0 < total_trades then
        (divChecked (wins : ℚ) (total_trades : ℚ)).map (fun x => x * 100)
      else some 0
    let avg_profit? : Option ℚ :=
      if 0 < total_trades then divChecked total_pnl (total_trades : ℚ)
      else some 0
    let roi? : Option ℚ :=
      if 0 < total_invested then
        (divChecked total_pnl total_invested).map (fun x => x * 100)
      else some 0
    match win_rate?, avg_profit?, roi? with
    | some wr, some ap, some r =>
      some
        { total_trades := total_trades, wins := wins, losses := losses
          win_rate := wr, total_pnl := total_pnl, total_fees := total_fees
          avg_profit := ap, roi := r, fee_rate := fee_rate * 100 }
    | _, _, _ => none

/-- One opportunity dictionary as the bot consumes it.  `condition_id`,
`market_id` and `source` are read with `dict.get`, so absence is `none`;
Python's `or` on strings also treats `""` as missing. -/
structure Opportunity where
  condition_id : Option String
  market_id : Option String
  question : String
  price : ℚ
  volume : ℚ
  liquidity : ℚ
  source : Option String
deriving DecidableEq, Repr

/-- `opp.get('condition_id') or opp.get('market_id')` (src/bot.py:69):
Python's `or` falls through on `None` and on the empty (falsy) string. -/
def oppMarketId (opp : Opportunity) : Option String :=
  match opp.condition_id with
  | some s => if s = "" then opp.market_id else some s
  | none => opp.market_id

/-- `PaperTradingBot.should_enter_trade` (src/bot.py:65-87): rejects when an
open trade already has this `market_id` (the venue/`market_source` is not
consulted), when the number of open trades reaches `MAX_POSITIONS`, when
liquidity is below `MIN_LIQUIDITY`, or when volume is below
`MIN_VOLUME_24H`. -/
def should_enter_trade (cfg : Config) (open_trades : List Trade)
    (opp : Opportunity) : Bool :=
  let market_id := oppMarketId opp
  if open_trades.any (fun t => market_id = some t.market_id) then false
  else if cfg.MAX_POSITIONS ≤ open_trades.length then false
  else if opp.liquidity < cfg.MIN_LIQUIDITY then false
  else if opp.volume < cfg.MIN_VOLUME_24H then false
  else true

/-- `PaperTradingBot.enter_trade` (src/bot.py:89-107): adds the trade with
`position_size = config.POSITION_SIZE` and
`market_source = opp.get('source', 'polymarket')`.  (A wholly missing
market id would violate the table's NOT NULL constraint; it is mapped to
`""` here, which `should_enter_trade` can never have accepted anyway.) -/
def enter_trade (cfg : Config) (db : DB) (opp : Opportunity) (now : Nat) : DB :=
  (add_trade db ((oppMarketId opp).getD "") opp.question opp.price
    cfg.POSITION_SIZE ((opp.source).getD "polymarket") "YES" now).1

/-- The body of the per-trade loop in
`PaperTradingBot.update_open_positions` (src/bot.py:118-150), for one trade
of the open snapshot.  `fetched` is what `get_current_price` returned
(`none` both when no client matches the source and when the client returned
`None`).  `if current_price:` is Python truthiness: `None` and `0.0` are
both falsy, so nothing happens for them; otherwise the stored price is
updated and the thresholds `current_price >= 0.99` (close WON at 1.0) and
`current_price < 0.80` (close LOST at the fetched price) are checked. -/
def update_one (cfg : Config) (db : DB) (t : Trade) (fetched : Option ℚ)
    (now : Nat) : DB :=
  match fetched with
  | none => db
  | some p =>
    if p = 0 then db
    else
      let db1 := update_trade_price db t.id p
      if 99 / 100 ≤ p then
        close_trade cfg.POLYMARKET_FEE db1 t.id 1 "WON" "Market resolved to YES" now
      else if p < 80 / 100 then
        close_trade cfg.POLYMARKET_FEE db1 t.id p "LOST" "Price dropped below threshold" now
      else db1

/-- `PaperTradingBot.update_open_positions` (src/bot.py:109-150): reads the
open snapshot once, then runs `update_one` for each trade of that snapshot
against the evolving database.  `fetch` is the venue price oracle. -/
def update_open_positions (cfg : Config) (db : DB) (fetch : Trade → Option ℚ)
    (now : Nat) : DB :=
  (get_open_trades db).foldl (fun d t => update_one cfg d t (fetch t) now) db

/-- The auto-entry loop of `PaperTradingBot.run_scan` (src/bot.py:234-239):
for each opportunity in order, `should_enter_trade` re-reads the open
snapshot from the database and the trade is entered on acceptance. -/
def processOpportunities (cfg : Config) (now : Nat) (db : DB)
    (opps : List Opportunity) : DB :=
  opps.foldl
    (fun d opp =>
      if should_enter_trade cfg (get_open_trades d) opp then
        enter_trade cfg d opp now
      else d)
    db

/-- The state-changing part of one `run_scan` cycle (src/bot.py:200-245):
auto-enter qualifying opportunities, then refresh/settle open positions
(display steps change no state). -/
def run_scan (cfg : Config) (db : DB) (opps : List Opportunity)
    (fetch : Trade → Option ℚ) (now : Nat) : DB :=
  update_open_positions cfg (processOpportunities cfg now db opps) fetch now

/-! ### Concrete sample data (used by witnesses and counterexamples) -/

def sampleOpenTrade : Trade :=
  { id := 1
    market_id := "M1"
    market_question := "Q?"
    market_source := "polymarket"
    entry_time := 0
    entry_price := 97 / 100
    position_size := 100
    current_price := some (97 / 100)
    status := Status.OPEN
    exit_time := none
    exit_price := none
    profit_loss := none
    fee_paid := 0
    outcome := none
    outcome_bet := "YES"
    notes := none }

def sampleClosedTrade : Trade :=
  { id := 2
    market_id := "M2"
    market_question := "R?"
    market_source := "polymarket"
    entry_time := 0
    entry_price := 97 / 100
    position_size := 100
    current_price := some 1
    status := Status.CLOSED
    exit_time := some 3
    exit_price := some 1
    profit_loss := some 3
    fee_paid := 1 / 10
    outcome := some "WON"
    outcome_bet := "YES"
    notes := some "Market resolved to YES" }

def kalshiOpenTrade : Trade :=
  { sampleOpenTrade with id := 4, market_source := "kalshi" }

def sampleDB : DB :=
  { trades := [sampleOpenTrade], next_id := 2 }

def sampleDB2 : DB :=
  { trades := [sampleOpenTrade, sampleClosedTrade], next_id := 3 }

def cexTrade : Trade :=
  { sampleOpenTrade with
    entry_price := 1 / 2
    position_size := 1
    current_price := some (1 / 2) }

def cexDB : DB :=
  { trades := [cexTrade], next_id := 2 }

def sampleOpp : Opportunity :=
  { condition_id := none
    market_id := some "M1"
    question := "Q?"
    price := 97 / 100
    volume := 1000
    liquidity := 2000
    source := some "polymarket" }

/-! ### Row-function facts -/

lemma updateRow_id (i : Nat) (p : ℚ) (t : Trade) :
    (updateRow i p t).id = t.id := by
  unfold updateRow; split <;> rfl

lemma updateRow_status (i : Nat) (p : ℚ) (t : Trade) :
    (updateRow i p t).status = t.status := by
  unfold updateRow; split <;> rfl

lemma closeRow_id (i : Nat) (ep pl fee : ℚ) (oc nt : String) (now : Nat)
    (t : Trade) : (closeRow i ep pl fee oc nt now t).id = t.id := by
  unfold closeRow; split <;> rfl

lemma closeRow_status (i : Nat) (ep pl fee : ℚ) (oc nt : String) (now : Nat)
    (t : Trade) :
    (closeRow i ep pl fee oc nt now t).status = t.status ∨
      (closeRow i ep pl fee oc nt now t).status = Status.CLOSED := by
  unfold closeRow; split
  · exact Or.inr rfl
  · exact Or.inl rfl

/-! ### Generic list lemmas for id-keyed maps -/

lemma find?_map_id (g : Trade → Trade) (hg : ∀ t, (g t).id = t.id) (i : Nat) :
    ∀ l : List Trade,
      (l.map g).find? (fun t => t.id = i) =
        (l.find? (fun t => t.id = i)).map g
  | [] => rfl
  | a :: l => by
    by_cases h : a.id = i
    · simp [List.find?, hg, h]
    · simpa [List.find?, hg, h] using find?_map_id g hg i l

lemma find?_id_of_nodup :
    ∀ l : List Trade, (l.map Trade.id).Nodup → ∀ t ∈ l,
      l.find? (fun x => x.id = t.id) = some t
  | [], _, t, ht => absurd ht (List.not_mem_nil t)
  | a :: l, hnd, t, ht => by
    rcases List.mem_cons.mp ht with rfl | htl
    · simp [List.find?]
    · have hmem : t.id ∈ l.map Trade.id := List.mem_map_of_mem Trade.id htl
      have hne : ¬ a.id = t.id := by
        intro he
        exact (List.nodup_cons.mp (by simpa using hnd)).1 (he ▸ hmem)
      have htail : (l.map Trade.id).Nodup :=
        (List.nodup_cons.mp (by simpa using hnd)).2
      simpa [List.find?, hne] using find?_id_of_nodup l htail t htl

lemma mem_map_id_unique (g : Trade → Trade) (hg : ∀ s, (g s).id = s.id)
    (l : List Trade) (hnd : (l.map Trade.id).Nodup) (t : Trade) (ht : t ∈ l) :
    ∀ t' ∈ l.map g, t'.id = t.id → t' = g t := by
  intro t' ht' hid
  rcases List.mem_map.mp ht' with ⟨s, hs, rfl⟩
  have hsid : s.id = t.id := by rw [← hg s]; exact hid
  have : s = t := List.inj_on_of_nodup_map hnd hs ht hsid
  rw [this]

/-! ### Open-count bookkeeping -/

lemma openCount_eq (db : DB) :
    openCount db = (db.trades.filter fun t => t.status = Status.OPEN).length :=
  rfl

lemma length_filter_open_map_eq (g : Trade → Trade)
    (hg : ∀ t, (g t).status = t.status) :
    ∀ l : List Trade,
      ((l.map g).filter fun t => t.status = Status.OPEN).length =
        (l.filter fun t => t.status = Status.OPEN).length
  | [] => rfl
  | a :: l => by
    by_cases h : a.status = Status.OPEN
    · simp [List.filter_cons, hg, h, length_filter_open_map_eq g hg l]
    · simp [List.filter_cons, hg, h, length_filter_open_map_eq g hg l]

lemma length_filter_open_map_le (g : Trade → Trade)
    (hg : ∀ t, (g t).status = t.status ∨ (g t).status = Status.CLOSED) :
    ∀ l : List Trade,
      ((l.map g).filter fun t => t.status = Status.OPEN).length ≤
        (l.filter fun t => t.status = Status.OPEN).length
  | [] => Nat.le_refl _
  | a :: l => by
    rcases hg a with h | h
    · by_cases ho : a.status = Status.OPEN
      · simpa [List.filter_cons, h, ho] using
          Nat.succ_le_succ (length_filter_open_map_le g hg l)
      · simpa [List.filter_cons, h, ho] using length_filter_open_map_le g hg l
    · by_cases ho : a.status = Status.OPEN
      · have h2 : ((l.map g).filter fun t => t.status = Status.OPEN).length ≤
            (l.filter fun t => t.status = Status.OPEN).length + 1 :=
          Nat.le_trans (length_filter_open_map_le g hg l) (Nat.le_succ _)
        simpa [List.filter_cons, h, ho] using h2
      · simpa [List.filter_cons, h, ho] using length_filter_open_map_le g hg l

lemma openCount_add_trade (db : DB) (mid q : String) (ep sz : ℚ)
    (src ob : String) (now : Nat) :
    openCount (add_trade db mid q ep sz src ob now).1 = openCount db + 1 := by
  simp [openCount, get_open_trades, add_trade, List.filter_append]

lemma openCount_update_trade_price (db : DB) (i : Nat) (p : ℚ) :
    openCount (update_trade_price db i p) = openCount db := by
  simpa [openCount, get_open_trades, update_trade_price] using
    length_filter_open_map_eq (updateRow i p) (updateRow_status i p) db.trades

lemma openCount_close_trade_le (fee_rate : ℚ) (db : DB) (i : Nat) (ep : ℚ)
    (oc nt : String) (now : Nat) :
    openCount (close_trade fee_rate db i ep oc nt now) ≤ openCount db := by
  unfold close_trade
  cases db.trades.find? (fun t => t.id = i) with
  | none => exact Nat.le_refl _
  | some t0 =>
    simpa [openCount, get_open_trades] using
      length_filter_open_map_le _ (fun t => closeRow_status i ep _ _ oc nt now t)
        db.trades

lemma openCount_update_one_le (cfg : Config) (db : DB) (t : Trade)
    (fetched : Option ℚ) (now : Nat) :
    openCount (update_one cfg db t fetched now) ≤ openCount db := by
  unfold update_one
  cases fetched with
  | none => exact Nat.le_refl _
  | some p =>
    by_cases hp : p = 0
    · simp [hp]
    · simp only [hp, if_false]
      split
      · exact Nat.le_trans (openCount_close_trade_le _ _ _ _ _ _ _)
          (Nat.le_of_eq (openCount_update_trade_price db t.id p))
      · split
        · exact Nat.le_trans (openCount_close_trade_le _ _ _ _ _ _ _)
            (Nat.le_of_eq (openCount_update_trade_price db t.id p))
        · exact Nat.le_of_eq (openCount_update_trade_price db t.id p)

lemma openCount_foldl_update_le (cfg : Config) (fetch : Trade → Option ℚ)
    (now : Nat) :
    ∀ (l : List Trade) (db : DB),
      openCount (l.foldl (fun d t => update_one cfg d t (fetch t) now) db) ≤
        openCount db
  | [], db => Nat.le_refl _
  | a :: l, db => by
    simp only [List.foldl_cons]
    exact Nat.le_trans (openCount_foldl_update_le cfg fetch now l _)
      (openCount_update_one_le cfg db a (fetch a) now)

lemma openCount_update_open_positions_le (cfg : Config) (db : DB)
    (fetch : Trade → Option ℚ) (now : Nat) :
    openCount (update_open_positions cfg db fetch now) ≤ openCount db :=
  openCount_foldl_update_le cfg fetch now (get_open_trades db) db

/-! ### The entry filter, characterized -/

lemma should_enter_trade_iff (cfg : Config) (ots : List Trade)
    (opp : Opportunity) :
    should_enter_trade cfg ots opp = true ↔
      (∀ t ∈ ots, oppMarketId opp ≠ some t.market_id) ∧
      ots.length < cfg.MAX_POSITIONS ∧
      cfg.MIN_LIQUIDITY ≤ opp.liquidity ∧
      cfg.MIN_VOLUME_24H ≤ opp.volume := by
  constructor
  · intro h
    simp only [should_enter_trade] at h
    split_ifs at h with h1 h2 h3 h4
    refine ⟨?_, Nat.lt_of_not_le h2, le_of_not_lt h3, le_of_not_lt h4⟩
    intro t ht he
    exact h1 (List.any_eq_true.mpr ⟨t, ht, by simpa using he⟩)
  · rintro ⟨ha, hb, hc, hd⟩
    have h1 : ¬ ots.any (fun t => oppMarketId opp = some t.market_id) = true := by
      intro hx
      rcases List.any_eq_true.mp hx with ⟨t, ht, he⟩
      exact ha t ht (by simpa using he)
    simp [should_enter_trade, h1, Nat.not_le.mpr hb, not_lt.mpr hc,
      not_lt.mpr hd]

lemma openCount_enter_trade (cfg : Config) (db : DB) (opp : Opportunity)
    (now : Nat) :
    openCount (enter_trade cfg db opp now) = openCount db + 1 := by
  simp [enter_trade, openCount_add_trade]

lemma foldl_enter_cap (cfg : Config) (now : Nat) :
    ∀ (opps : List Opportunity) (db : DB),
      openCount db ≤ cfg.MAX_POSITIONS →
      openCount (opps.foldl
        (fun d opp =>
          if should_enter_trade cfg (get_open_trades d) opp then
            enter_trade cfg d opp now
          else d) db) ≤ cfg.MAX_POSITIONS
  | [], _, h => h
  | opp :: opps, db, h => by
    simp only [List.foldl_cons]
    apply foldl_enter_cap cfg now opps
    by_cases hs : should_enter_trade cfg (get_open_trades db) opp = true
    · have hlt : (get_open_trades db).length < cfg.MAX_POSITIONS :=
        ((should_enter_trade_iff cfg (get_open_trades db) opp).mp hs).2.1
      rw [if_pos hs, openCount_enter_trade]
      exact hlt
    · rw [if_neg hs]
      exact h

lemma processOpportunities_cap (cfg : Config) (now : Nat)
    (opps : List Opportunity) (db : DB)
    (h : openCount db ≤ cfg.MAX_POSITIONS) :
    openCount (processOpportunities cfg now db opps) ≤ cfg.MAX_POSITIONS :=
  foldl_enter_cap cfg now opps db h

/-! ### Rows not named by an update are untouched -/

lemma updateRow_of_ne (i : Nat) (p : ℚ) (t : Trade) (hne : t.id ≠ i) :
    updateRow i p t = t := by
  unfold updateRow
  rw [if_neg (by intro hc; exact hne hc.1)]

lemma closeRow_of_ne (i : Nat) (ep pl fee : ℚ) (oc nt : String) (now : Nat)
    (t : Trade) (hne : t.id ≠ i) : closeRow i ep pl fee oc nt now t = t := by
  unfold closeRow
  rw [if_neg hne]

lemma mem_update_trade_price_of_ne (db : DB) (i : Nat) (p : ℚ) (t : Trade)
    (ht : t ∈ db.trades) (hne : t.id ≠ i) :
    t ∈ (update_trade_price db i p).trades := by
  have := List.mem_map_of_mem (updateRow i p) ht
  rwa [updateRow_of_ne i p t hne] at this

lemma mem_close_trade_of_ne (fee_rate : ℚ) (db : DB) (i : Nat) (ep : ℚ)
    (oc nt : String) (now : Nat) (t : Trade) (ht : t ∈ db.trades)
    (hne : t.id ≠ i) : t ∈ (close_trade fee_rate db i ep oc nt now).trades := by
  unfold close_trade
  cases db.trades.find? (fun x => x.id = i) with
  | none => exact ht
  | some t0 =>
    have := List.mem_map_of_mem
      (closeRow i ep
        (settleAmounts fee_rate t0.entry_price t0.position_size ep oc).1
        (settleAmounts fee_rate t0.entry_price t0.position_size ep oc).2
        oc nt now) ht
    rwa [closeRow_of_ne i ep _ _ oc nt now t hne] at this

lemma mem_update_one_of_ne (cfg : Config) (db : DB) (u : Trade)
    (fetched : Option ℚ) (now : Nat) (t : Trade) (ht : t ∈ db.trades)
    (hne : t.id ≠ u.id) : t ∈ (update_one cfg db u fetched now).trades := by
  unfold update_one
  cases fetched with
  | none => exact ht
  | some p =>
    by_cases hp : p = 0
    · simpa [hp] using ht
    · simp only [hp, if_false]
      have h1 : t ∈ (update_trade_price db u.id p).trades :=
        mem_update_trade_price_of_ne db u.id p t ht hne
      split
      · exact mem_close_trade_of_ne _ _ _ _ _ _ _ t h1 hne
      · split
        · exact mem_close_trade_of_ne _ _ _ _ _ _ _ t h1 hne
        · exact h1

lemma mem_foldl_update (cfg : Config) (fetch : Trade → Option ℚ) (now : Nat) :
    ∀ (l : List Trade) (db : DB) (t : Trade), t ∈ db.trades →
      (∀ u ∈ l, t.id ≠ u.id) →
      t ∈ (l.foldl (fun d u => update_one cfg d u (fetch u) now) db).trades
  | [], _, _, ht, _ => ht
  | a :: l, db, t, ht, hne => by
    simp only [List.foldl_cons]
    exact mem_foldl_update cfg fetch now l _ t
      (mem_update_one_of_ne cfg db a (fetch a) now t ht
        (hne a (List.mem_cons_self a l)))
      (fun u hu => hne u (List.mem_cons_of_mem a hu))

/-! ### Normal forms of the updates on the row they name -/

lemma updateRow_self (p : ℚ) (t : Trade) (hopen : t.status = Status.OPEN) :
    updateRow t.id p t = { t with current_price := some p } := by
  unfold updateRow
  rw [if_pos ⟨rfl, hopen⟩]

lemma updateRow_entry_price (i : Nat) (p : ℚ) (s : Trade) :
    (updateRow i p s).entry_price = s.entry_price := by
  unfold updateRow; split <;> rfl

lemma updateRow_position_size (i : Nat) (p : ℚ) (s : Trade) :
    (updateRow i p s).position_size = s.position_size := by
  unfold updateRow; split <;> rfl

lemma close_after_update_trades (fee_rate : ℚ) (db : DB) (t : Trade)
    (p ep : ℚ) (oc nt : String) (now : Nat)
    (hnd : (db.trades.map Trade.id).Nodup) (ht : t ∈ db.trades) :
    (close_trade fee_rate (update_trade_price db t.id p) t.id ep oc nt now).trades =
      db.trades.map (fun s =>
        closeRow t.id ep
          (settleAmounts fee_rate t.entry_price t.position_size ep oc).1
          (settleAmounts fee_rate t.entry_price t.position_size ep oc).2
          oc nt now (updateRow t.id p s)) := by
  unfold close_trade
  have hfind : (update_trade_price db t.id p).trades.find? (fun x => x.id = t.id)
      = some (updateRow t.id p t) := by
    show (db.trades.map (updateRow t.id p)).find? (fun x => x.id = t.id)
        = some (updateRow t.id p t)
    rw [find?_map_id (updateRow t.id p) (updateRow_id t.id p) t.id db.trades,
      find?_id_of_nodup db.trades hnd t ht]
    rfl
  rw [hfind]
  show (db.trades.map (updateRow t.id p)).map _ = _
  rw [List.map_map]
  simp only [Function.comp_def, updateRow_entry_price, updateRow_position_size]

lemma update_one_zero (cfg : Config) (db : DB) (t : Trade) (now : Nat) :
    update_one cfg db t (some 0) now = db := by
  simp [update_one]

lemma foldl_update_zero (cfg : Config) (now : Nat) :
    ∀ (l : List Trade) (db : DB),
      l.foldl (fun d t => update_one cfg d t (some 0) now) db = db
  | [], _ => rfl
  | a :: l, db => by
    simp only [List.foldl_cons, update_one_zero]
    exact foldl_update_zero cfg now l db

lemma close_trade_trades_of_mem (fee_rate : ℚ) (db : DB) (t : Trade)
    (ep : ℚ) (oc nt : String) (now : Nat)
    (hnd : (db.trades.map Trade.id).Nodup) (ht : t ∈ db.trades) :
    (close_trade fee_rate db t.id ep oc nt now).trades =
      db.trades.map
        (closeRow t.id ep
          (settleAmounts fee_rate t.entry_price t.position_size ep oc).1
          (settleAmounts fee_rate t.entry_price t.position_size ep oc).2
          oc nt now) := by
  unfold close_trade
  rw [find?_id_of_nodup db.trades hnd t ht]


/-! ## The claims -/

/-- C1 fails on the code: `add_trade` performs no duplicate check and there
is no `DuplicateMarketError` anywhere — two consecutive open attempts for
the same (venue, market id) both insert an OPEN row, so the second is not
dropped and the ledger state changes. -/
theorem add_trade_duplicate_open_cex :
    ((add_trade { trades := [], next_id := 1 } "M1" "Q?" (97 / 100) 100
        "polymarket" "YES" 0).1.trades.filter
      (fun t => t.status = Status.OPEN ∧ t.market_id = "M1" ∧
        t.market_source = "polymarket")).length = 1 ∧
    ((add_trade
        (add_trade { trades := [], next_id := 1 } "M1" "Q?" (97 / 100) 100
          "polymarket" "YES" 0).1
        "M1" "Q?" (97 / 100) 100 "polymarket" "YES" 1).1.trades.filter
      (fun t => t.status = Status.OPEN ∧ t.market_id = "M1" ∧
        t.market_source = "polymarket")).length = 2 := by
  decide

/-- C1 amended: the Ledger open operation `add_trade` performs no duplicate
check at all — even when an OPEN position for the same (venue, market id)
already exists, the call succeeds and appends one more OPEN row, so the
ledger then holds at least two OPEN positions for that (venue, market id);
duplicate prevention happens only in the Filter. -/
theorem add_trade_inserts_despite_duplicate (db : DB) (mid q : String)
    (ep sz : ℚ) (src ob : String) (now : Nat) (t : Trade)
    (ht : t ∈ db.trades) (hopen : t.status = Status.OPEN)
    (hmid : t.market_id = mid) (hsrc : t.market_source = src) :
    (add_trade db mid q ep sz src ob now).1.trades.length =
      db.trades.length + 1 ∧
    2 ≤ ((add_trade db mid q ep sz src ob now).1.trades.filter
      (fun s => s.status = Status.OPEN ∧ s.market_id = mid ∧
        s.market_source = src)).length := by
  constructor
  · simp [add_trade]
  · have h1 : t ∈ db.trades.filter
        (fun s => s.status = Status.OPEN ∧ s.market_id = mid ∧
          s.market_source = src) :=
      List.mem_filter.mpr ⟨ht, by simp [hopen, hmid, hsrc]⟩
    have h2 : 1 ≤ (db.trades.filter
        (fun s => s.status = Status.OPEN ∧ s.market_id = mid ∧
          s.market_source = src)).length :=
      List.length_pos.mpr (List.ne_nil_of_mem h1)
    have h5 : ((add_trade db mid q ep sz src ob now).1.trades.filter
        (fun s => s.status = Status.OPEN ∧ s.market_id = mid ∧
          s.market_source = src)).length =
        (db.trades.filter
          (fun s => s.status = Status.OPEN ∧ s.market_id = mid ∧
            s.market_source = src)).length + 1 := by
      show ((db.trades ++ [_]).filter _).length = _
      rw [List.filter_append, List.length_append]
      simp
    omega

/-- Witness for C1's amended theorem at a concrete ledger state. -/
theorem add_trade_inserts_despite_duplicate_witness :
    (sampleOpenTrade ∈ sampleDB.trades ∧
      sampleOpenTrade.status = Status.OPEN ∧
      sampleOpenTrade.market_id = "M1" ∧
      sampleOpenTrade.market_source = "polymarket") ∧
    ((add_trade sampleDB "M1" "Q?" (97 / 100) 100 "polymarket" "YES" 8).1.trades.length =
      sampleDB.trades.length + 1 ∧
    2 ≤ ((add_trade sampleDB "M1" "Q?" (97 / 100) 100 "polymarket" "YES" 8).1.trades.filter
      (fun s => s.status = Status.OPEN ∧ s.market_id = "M1" ∧
        s.market_source = "polymarket")).length) :=
  ⟨⟨by simp [sampleDB], by rfl, by rfl, by rfl⟩,
    add_trade_inserts_despite_duplicate sampleDB "M1" "Q?" (97 / 100) 100
      "polymarket" "YES" 8 sampleOpenTrade (by simp [sampleDB]) (by rfl)
      (by rfl) (by rfl)⟩

/-- C2 fails on the code: `should_enter_trade` compares only `market_id`,
never the venue, so an OPEN position with the same market identifier on a
different venue by itself causes rejection even though the cap, liquidity
and volume checks all pass. -/
theorem duplicate_rejection_ignores_venue_cex :
    should_enter_trade config [kalshiOpenTrade] sampleOpp = false ∧
    kalshiOpenTrade.status = Status.OPEN ∧
    kalshiOpenTrade.market_source = "kalshi" ∧
    sampleOpp.source = some "polymarket" ∧
    oppMarketId sampleOpp = some kalshiOpenTrade.market_id ∧
    [kalshiOpenTrade].length < config.MAX_POSITIONS ∧
    config.MIN_LIQUIDITY ≤ sampleOpp.liquidity ∧
    config.MIN_VOLUME_24H ≤ sampleOpp.volume := by
  decide

/-- C2 amended: `should_enter_trade` accepts exactly when no position of the
open snapshot has the opportunity's market identifier (the venue is not part
of the duplicate key), the snapshot is below `MAX_POSITIONS`, and the
liquidity and volume minima hold. -/
theorem should_enter_trade_characterization (cfg : Config) (ots : List Trade)
    (opp : Opportunity) :
    should_enter_trade cfg ots opp = true ↔
      (∀ t ∈ ots, oppMarketId opp ≠ some t.market_id) ∧
      ots.length < cfg.MAX_POSITIONS ∧
      cfg.MIN_LIQUIDITY ≤ opp.liquidity ∧
      cfg.MIN_VOLUME_24H ≤ opp.volume :=
  should_enter_trade_iff cfg ots opp

/-- C3: starting from a state with at most `MAX_POSITIONS` OPEN positions,
one scan cycle keeps the OPEN count at or below the cap — after the entry
fold over every prefix of the opportunity list (the filter re-reads the open
snapshot before each entry, so the bound holds after every acceptance) and
after the refresh/settle pass. -/
theorem scan_cycle_preserves_cap (cfg : Config) (db : DB)
    (opps : List Opportunity) (fetch : Trade → Option ℚ) (now : Nat)
    (hcap : openCount db ≤ cfg.MAX_POSITIONS) :
    (∀ i : Nat, openCount (processOpportunities cfg now db (opps.take i)) ≤
      cfg.MAX_POSITIONS) ∧
    openCount (run_scan cfg db opps fetch now) ≤ cfg.MAX_POSITIONS := by
  constructor
  · intro i
    exact processOpportunities_cap cfg now (opps.take i) db hcap
  · exact Nat.le_trans
      (openCount_update_open_positions_le cfg
        (processOpportunities cfg now db opps) fetch now)
      (processOpportunities_cap cfg now opps db hcap)

/-- Witness for C3 at a concrete state: one open position, one opportunity,
prices refreshed to 0.85. -/
theorem scan_cycle_preserves_cap_witness :
    openCount sampleDB ≤ config.MAX_POSITIONS ∧
    ((∀ i : Nat, openCount (processOpportunities config 9 sampleDB
        ([sampleOpp].take i)) ≤ config.MAX_POSITIONS) ∧
      openCount (run_scan config sampleDB [sampleOpp]
        (fun _ => some (85 / 100)) 9) ≤ config.MAX_POSITIONS) :=
  ⟨by decide,
    scan_cycle_preserves_cap config sampleDB [sampleOpp]
      (fun _ => some (85 / 100)) 9 (by decide)⟩

/-- C8: the performance summary is total — the checked-division model never
hits a zero denominator for any database state — and with no CLOSED
positions it returns the defined zero-valued summary. -/
theorem performance_stats_total_and_zero_defaults (fee_rate : ℚ) (db : DB) :
    (get_performance_stats fee_rate db).isSome = true ∧
    (db.trades.filter (fun t => t.status = Status.CLOSED) = [] →
      get_performance_stats fee_rate db =
        some { total_trades := 0, wins := 0, losses := 0, win_rate := 0
               total_pnl := 0, total_fees := 0, avg_profit := 0, roi := 0
               fee_rate := fee_rate * 100 }) := by
  constructor
  · by_cases hc : (db.trades.filter fun t => t.status = Status.CLOSED).length = 0
    · simp [get_performance_stats, hc]
    · have hL0 : 0 < (db.trades.filter fun t => t.status = Status.CLOSED).length :=
        Nat.pos_of_ne_zero hc
      have hLQ : ((db.trades.filter fun t => t.status = Status.CLOSED).length : ℚ) ≠ 0 := by
        exact_mod_cast hc
      by_cases hs : ((db.trades.filter fun t => t.status = Status.CLOSED).map
          fun t => t.position_size).sum = 0
      · simp [get_performance_stats, hc, hL0, hLQ, divChecked, hs]
      · by_cases hpos : 0 < ((db.trades.filter fun t => t.status = Status.CLOSED).map
            fun t => t.position_size).sum
        · simp [get_performance_stats, hc, hL0, hLQ, divChecked, hs, hpos,
            ne_of_gt hpos]
        · simp [get_performance_stats, hc, hL0, hLQ, divChecked, hs, hpos]
  · intro h
    simp [get_performance_stats, h]

/-- Witness for C8 on the empty database. -/
theorem performance_stats_zero_defaults_witness :
    (({ trades := [], next_id := 1 } : DB).trades.filter
      (fun t => t.status = Status.CLOSED) = []) ∧
    get_performance_stats (2 / 100) { trades := [], next_id := 1 } =
      some { total_trades := 0, wins := 0, losses := 0, win_rate := 0
             total_pnl := 0, total_fees := 0, avg_profit := 0, roi := 0
             fee_rate := (2 / 100) * 100 } :=
  ⟨by decide,
    (performance_stats_total_and_zero_defaults (2 / 100)
      { trades := [], next_id := 1 }).2 (by decide)⟩

/-- C9 fails on the code: `add_trade` populates `current_price` with the
entry price (the INSERT passes `entry_price` for that column), so the
last-observed price is not null at creation. -/
theorem add_trade_current_price_not_null_cex :
    ((add_trade { trades := [], next_id := 1 } "M1" "Q?" (97 / 100) 100
        "polymarket" "YES" 0).1.trades.map fun t => t.current_price) =
      [some (97 / 100)] ∧
    some ((97 : ℚ) / 100) ≠ (none : Option ℚ) := by
  simp [add_trade]

/-- C9 amended: `add_trade` appends exactly one OPEN row whose
`current_price` field is initialized to the entry price (not null). -/
theorem add_trade_sets_current_price (db : DB) (mid q : String)
    (ep sz : ℚ) (src ob : String) (now : Nat) :
    ∃ t : Trade, (add_trade db mid q ep sz src ob now).1.trades =
      db.trades ++ [t] ∧ t.current_price = some ep ∧ t.status = Status.OPEN :=
  ⟨_, rfl, rfl, rfl⟩

/-- C10: a fetched price of exactly 0 is treated like an absent price by the
refresh step — the database is left entirely unchanged (no price update, no
settlement) both for one position and across a whole refresh pass — even
though 0 is below the loss threshold. -/
theorem zero_price_treated_as_absent (cfg : Config) (db : DB) (t : Trade)
    (now : Nat) :
    update_one cfg db t (some 0) now = db ∧
    update_one cfg db t none now = db ∧
    update_open_positions cfg db (fun _ => some 0) now = db ∧
    (0 : ℚ) < 80 / 100 := by
  refine ⟨update_one_zero cfg db t now, rfl, ?_, by norm_num⟩
  exact foldl_update_zero cfg now (get_open_trades db) db

/-- C4 fails on the code: `close_trade` carries no status guard, so a second
settlement call on an already-CLOSED position rewrites exit price, outcome,
profit_loss, fee_paid, the close timestamp and the note (entry 0.5, stake 1:
a WON close at 1.0 records P&L 49/50 and fee 1/50; re-closing LOST at 0.5
overwrites them with −1 and 0). -/
theorem close_trade_overwrites_settlement_cex :
    ((close_trade (2 / 100) cexDB 1 1 "WON" "n1" 5).trades.map
      (fun t => (t.status, t.outcome, t.exit_price, t.profit_loss, t.fee_paid))) =
      [(Status.CLOSED, some "WON", some 1, some (49 / 50), 1 / 50)] ∧
    ((close_trade (2 / 100) (close_trade (2 / 100) cexDB 1 1 "WON" "n1" 5) 1
        (1 / 2) "LOST" "n2" 9).trades.map
      (fun t => (t.status, t.outcome, t.exit_price, t.profit_loss, t.fee_paid))) =
      [(Status.CLOSED, some "LOST", some (1 / 2), some (-1), 0)] ∧
    (some ((49 : ℚ) / 50) ≠ some (-1 : ℚ) ∧ ((1 : ℚ) / 50) ≠ 0 ∧
      some (1 : ℚ) ≠ some ((1 : ℚ) / 2)) := by
  refine ⟨?_, ?_, by norm_num, by norm_num, by norm_num⟩
  · norm_num [close_trade, closeRow, settleAmounts, cexDB, cexTrade,
      sampleOpenTrade, List.find?, max_def]
  · norm_num [close_trade, closeRow, settleAmounts, cexDB, cexTrade,
      sampleOpenTrade, List.find?, max_def]
    rw [if_neg (by decide : ¬("LOST" = "WON"))]
    exact ⟨rfl, rfl⟩

/-- C4 amended: settlement through the refresh loop is idempotent — a CLOSED
row is never touched by `update_open_positions` (the snapshot holds only
OPEN rows and every write is keyed by their ids), so its settlement fields
are never rewritten there; a direct `close_trade` call on a CLOSED id,
however, does overwrite them (see the counterexample). -/
theorem refresh_never_touches_closed (cfg : Config) (db : DB)
    (fetch : Trade → Option ℚ) (now : Nat)
    (hnd : (db.trades.map Trade.id).Nodup) (t : Trade) (ht : t ∈ db.trades)
    (hcl : t.status = Status.CLOSED) :
    t ∈ (update_open_positions cfg db fetch now).trades := by
  unfold update_open_positions
  apply mem_foldl_update cfg fetch now (get_open_trades db) db t ht
  intro u hu
  have hu' := List.mem_filter.mp hu
  have huo : u.status = Status.OPEN := by simpa using hu'.2
  intro he
  have hteq : t = u := List.inj_on_of_nodup_map hnd ht hu'.1 he
  rw [hteq, huo] at hcl
  cases hcl

/-- Witness for C4's amended theorem: a database with one OPEN and one
CLOSED position; the refresh pass leaves the CLOSED record untouched. -/
theorem refresh_never_touches_closed_witness :
    ((sampleDB2.trades.map Trade.id).Nodup ∧
      sampleClosedTrade ∈ sampleDB2.trades ∧
      sampleClosedTrade.status = Status.CLOSED) ∧
    sampleClosedTrade ∈
      (update_open_positions config sampleDB2 (fun _ => some (1 / 2)) 9).trades :=
  ⟨⟨by decide, by simp [sampleDB2], by rfl⟩,
    refresh_never_touches_closed config sampleDB2 (fun _ => some (1 / 2)) 9
      (by decide) sampleClosedTrade (by simp [sampleDB2]) (by rfl)⟩

/-- C6: a LOST settlement forfeits the whole stake regardless of the exit
price recorded: `close_trade` writes `profit_loss = -position_size` and
`fee_paid = 0` on the row it closes. -/
theorem lost_settlement_forfeits_stake (fee_rate : ℚ) (db : DB) (t : Trade)
    (ep : ℚ) (nt : String) (now : Nat)
    (hnd : (db.trades.map Trade.id).Nodup) (ht : t ∈ db.trades) :
    (∃ t' ∈ (close_trade fee_rate db t.id ep "LOST" nt now).trades,
      t'.id = t.id) ∧
    ∀ t' ∈ (close_trade fee_rate db t.id ep "LOST" nt now).trades,
      t'.id = t.id →
        t'.profit_loss = some (-t.position_size) ∧ t'.fee_paid = 0 := by
  have hA : settleAmounts fee_rate t.entry_price t.position_size ep "LOST" =
      (-t.position_size, 0) := by
    simp [settleAmounts]
  have htr2 : (close_trade fee_rate db t.id ep "LOST" nt now).trades =
      db.trades.map (closeRow t.id ep (-t.position_size) 0 "LOST" nt now) := by
    rw [close_trade_trades_of_mem fee_rate db t ep "LOST" nt now hnd ht, hA]
  constructor
  · refine ⟨closeRow t.id ep (-t.position_size) 0 "LOST" nt now t, ?_,
      closeRow_id _ _ _ _ _ _ _ t⟩
    rw [htr2]
    exact List.mem_map_of_mem _ ht
  · intro t' ht' hid
    rw [htr2] at ht'
    have heq := mem_map_id_unique
      (closeRow t.id ep (-t.position_size) 0 "LOST" nt now)
      (closeRow_id t.id ep (-t.position_size) 0 "LOST" nt now)
      db.trades hnd t ht t' ht' hid
    rw [heq]
    unfold closeRow
    rw [if_pos rfl]
    exact ⟨rfl, rfl⟩

/-- Witness for C6 at a concrete state (exit price 0.5, stake 100). -/
theorem lost_settlement_forfeits_stake_witness :
    ((sampleDB.trades.map Trade.id).Nodup ∧
      sampleOpenTrade ∈ sampleDB.trades) ∧
    (∃ t' ∈ (close_trade (2 / 100) sampleDB sampleOpenTrade.id (1 / 2)
        "LOST" "n" 5).trades, t'.id = sampleOpenTrade.id) :=
  ⟨⟨by decide, by simp [sampleDB]⟩,
    (lost_settlement_forfeits_stake (2 / 100) sampleDB sampleOpenTrade (1 / 2)
      "n" 5 (by decide) (by simp [sampleDB])).1⟩

/-- C7: a WON settlement through the refresh loop (exit price forced to 1)
writes `fee_paid = max 0 (gross_profit * fee_rate)` and
`profit_loss = gross_profit - fee_paid`, where
`gross_profit = (position_size / entry_price) * (1 - entry_price)`, and the
fee invariant `0 ≤ fee_paid ≤ gross_profit` holds, under the data-model
invariants `0 < entry_price ≤ 1`, `0 ≤ position_size` and a fee rate in
`[0, 1]`. -/
theorem won_settlement_fee_invariant (cfg : Config) (db : DB) (t : Trade)
    (p : ℚ) (now : Nat)
    (hnd : (db.trades.map Trade.id).Nodup) (ht : t ∈ db.trades)
    (hp : 99 / 100 ≤ p)
    (he0 : 0 < t.entry_price) (he1 : t.entry_price ≤ 1)
    (hsz : 0 ≤ t.position_size)
    (hf0 : 0 ≤ cfg.POLYMARKET_FEE) (hf1 : cfg.POLYMARKET_FEE ≤ 1) :
    (∃ t' ∈ (update_one cfg db t (some p) now).trades, t'.id = t.id) ∧
    (∀ t' ∈ (update_one cfg db t (some p) now).trades, t'.id = t.id →
      t'.fee_paid = max 0 (t.position_size / t.entry_price *
        (1 - t.entry_price) * cfg.POLYMARKET_FEE) ∧
      t'.profit_loss = some (t.position_size / t.entry_price *
        (1 - t.entry_price) -
        max 0 (t.position_size / t.entry_price * (1 - t.entry_price) *
          cfg.POLYMARKET_FEE))) ∧
    0 ≤ max 0 (t.position_size / t.entry_price * (1 - t.entry_price) *
      cfg.POLYMARKET_FEE) ∧
    max 0 (t.position_size / t.entry_price * (1 - t.entry_price) *
        cfg.POLYMARKET_FEE) ≤
      t.position_size / t.entry_price * (1 - t.entry_price) := by
  have hpne : p ≠ 0 := by
    intro h
    rw [h] at hp
    norm_num at hp
  have hred : update_one cfg db t (some p) now =
      close_trade cfg.POLYMARKET_FEE (update_trade_price db t.id p) t.id 1
        "WON" "Market resolved to YES" now := by
    simp [update_one, hpne, hp]
  have hA : settleAmounts cfg.POLYMARKET_FEE t.entry_price t.position_size 1
      "WON" =
      (t.position_size / t.entry_price * (1 - t.entry_price) -
        max 0 (t.position_size / t.entry_price * (1 - t.entry_price) *
          cfg.POLYMARKET_FEE),
       max 0 (t.position_size / t.entry_price * (1 - t.entry_price) *
          cfg.POLYMARKET_FEE)) := by
    simp [settleAmounts]
  have htr2 : (update_one cfg db t (some p) now).trades =
      db.trades.map (fun s =>
        closeRow t.id 1
          (t.position_size / t.entry_price * (1 - t.entry_price) -
            max 0 (t.position_size / t.entry_price * (1 - t.entry_price) *
              cfg.POLYMARKET_FEE))
          (max 0 (t.position_size / t.entry_price * (1 - t.entry_price) *
            cfg.POLYMARKET_FEE))
          "WON" "Market resolved to YES" now (updateRow t.id p s)) := by
    rw [hred, close_after_update_trades cfg.POLYMARKET_FEE db t p 1 "WON"
      "Market resolved to YES" now hnd ht]
    simp only [hA]
  have hgid : ∀ s : Trade,
      (closeRow t.id 1
        (t.position_size / t.entry_price * (1 - t.entry_price) -
          max 0 (t.position_size / t.entry_price * (1 - t.entry_price) *
            cfg.POLYMARKET_FEE))
        (max 0 (t.position_size / t.entry_price * (1 - t.entry_price) *
          cfg.POLYMARKET_FEE))
        "WON" "Market resolved to YES" now (updateRow t.id p s)).id = s.id := by
    intro s
    rw [closeRow_id, updateRow_id]
  have hG : 0 ≤ t.position_size / t.entry_price * (1 - t.entry_price) :=
    mul_nonneg (div_nonneg hsz he0.le) (by linarith)
  refine ⟨?_, ?_, le_max_left _ _, ?_⟩
  · refine ⟨_, ?_, hgid t⟩
    rw [htr2]
    exact List.mem_map_of_mem _ ht
  · intro t' ht' hid
    rw [htr2] at ht'
    have heq := mem_map_id_unique _ hgid db.trades hnd t ht t' ht' hid
    rw [heq]
    unfold closeRow
    rw [if_pos (updateRow_id t.id p t)]
    exact ⟨rfl, rfl⟩
  · exact max_le hG (mul_le_of_le_one_right hG hf1)

/-- Witness for C7 at a concrete state: entry 0.97, stake 100, refreshed
price 1, the configured 2% fee. -/
theorem won_settlement_fee_invariant_witness :
    ((sampleDB.trades.map Trade.id).Nodup ∧
      sampleOpenTrade ∈ sampleDB.trades ∧
      (99 : ℚ) / 100 ≤ 1 ∧
      0 < sampleOpenTrade.entry_price ∧ sampleOpenTrade.entry_price ≤ 1 ∧
      0 ≤ sampleOpenTrade.position_size ∧
      0 ≤ config.POLYMARKET_FEE ∧ config.POLYMARKET_FEE ≤ 1) ∧
    (0 ≤ max 0 (sampleOpenTrade.position_size / sampleOpenTrade.entry_price *
        (1 - sampleOpenTrade.entry_price) * config.POLYMARKET_FEE) ∧
      max 0 (sampleOpenTrade.position_size / sampleOpenTrade.entry_price *
          (1 - sampleOpenTrade.entry_price) * config.POLYMARKET_FEE) ≤
        sampleOpenTrade.position_size / sampleOpenTrade.entry_price *
          (1 - sampleOpenTrade.entry_price)) :=
  ⟨⟨by decide, by simp [sampleDB], by norm_num,
      by norm_num [sampleOpenTrade], by norm_num [sampleOpenTrade],
      by norm_num [sampleOpenTrade], by norm_num [config],
      by norm_num [config]⟩,
    ⟨(won_settlement_fee_invariant config sampleDB sampleOpenTrade 1 7
        (by decide) (by simp [sampleDB]) (by norm_num)
        (by norm_num [sampleOpenTrade]) (by norm_num [sampleOpenTrade])
        (by norm_num [sampleOpenTrade]) (by norm_num [config])
        (by norm_num [config])).2.2.1,
      (won_settlement_fee_invariant config sampleDB sampleOpenTrade 1 7
        (by decide) (by simp [sampleDB]) (by norm_num)
        (by norm_num [sampleOpenTrade]) (by norm_num [sampleOpenTrade])
        (by norm_num [sampleOpenTrade]) (by norm_num [config])
        (by norm_num [config])).2.2.2⟩⟩

/-- C5 fails on the code at p = 0: the price 0 lies in [0,1] and is below
the 0.80 loss threshold, yet the refresh step settles nothing — the
database is returned unchanged and the position stays OPEN, because
`if current_price:` treats 0.0 as falsy. -/
theorem zero_price_skips_lost_settlement_cex :
    update_one config sampleDB sampleOpenTrade (some 0) 7 = sampleDB ∧
    sampleOpenTrade ∈ sampleDB.trades ∧
    sampleOpenTrade.status = Status.OPEN ∧
    (0 : ℚ) ≤ 0 ∧ (0 : ℚ) ≤ 1 ∧ (0 : ℚ) < 80 / 100 :=
  ⟨update_one_zero config sampleDB sampleOpenTrade 7, by simp [sampleDB],
    rfl, le_refl 0, by norm_num, by norm_num⟩

/-- C5 amended: for every OPEN position and every *strictly positive*
refreshed price p in (0,1]: p ≥ 0.99 settles WON with exit price forced to
1 (the boundary 0.99 itself is inclusive); p < 0.80 settles LOST with exit
price p (0.80 itself does not settle, the low boundary is exclusive); for
0.80 ≤ p < 0.99 no settlement occurs and only the stored price is
refreshed.  (p = 0 is excluded: the code treats it as an absent price.) -/
theorem settlement_threshold_boundaries (cfg : Config) (db : DB) (t : Trade)
    (p : ℚ) (now : Nat)
    (hnd : (db.trades.map Trade.id).Nodup) (ht : t ∈ db.trades)
    (hopen : t.status = Status.OPEN) (hp0 : 0 < p) (hp1 : p ≤ 1) :
    (99 / 100 ≤ p →
      ∀ t' ∈ (update_one cfg db t (some p) now).trades, t'.id = t.id →
        t'.status = Status.CLOSED ∧ t'.exit_price = some 1 ∧
        t'.outcome = some "WON") ∧
    (p < 80 / 100 →
      ∀ t' ∈ (update_one cfg db t (some p) now).trades, t'.id = t.id →
        t'.status = Status.CLOSED ∧ t'.exit_price = some p ∧
        t'.outcome = some "LOST") ∧
    (80 / 100 ≤ p → p < 99 / 100 →
      ∀ t' ∈ (update_one cfg db t (some p) now).trades, t'.id = t.id →
        t'.status = Status.OPEN ∧ t'.current_price = some p ∧
        t'.exit_price = t.exit_price ∧ t'.outcome = t.outcome ∧
        t'.profit_loss = t.profit_loss ∧ t'.fee_paid = t.fee_paid) ∧
    (∃ t' ∈ (update_one cfg db t (some p) now).trades, t'.id = t.id) := by
  have hpne : p ≠ 0 := hp0.ne'
  refine ⟨?_, ?_, ?_, ?_⟩
  · intro h99 t' ht' hid
    have hred : update_one cfg db t (some p) now =
        close_trade cfg.POLYMARKET_FEE (update_trade_price db t.id p) t.id 1
          "WON" "Market resolved to YES" now := by
      simp [update_one, hpne, h99]
    rw [hred, close_after_update_trades cfg.POLYMARKET_FEE db t p 1 "WON"
      "Market resolved to YES" now hnd ht] at ht'
    have heq := mem_map_id_unique _
      (fun s => by rw [closeRow_id, updateRow_id]) db.trades hnd t ht t'
      ht' hid
    rw [heq]
    unfold closeRow
    rw [if_pos (updateRow_id t.id p t)]
    exact ⟨rfl, rfl, rfl⟩
  · intro h80 t' ht' hid
    have h99n : ¬ (99 / 100 ≤ p) := not_le.mpr (lt_trans h80 (by norm_num))
    have hred : update_one cfg db t (some p) now =
        close_trade cfg.POLYMARKET_FEE (update_trade_price db t.id p) t.id p
          "LOST" "Price dropped below threshold" now := by
      simp [update_one, hpne, h99n, h80]
    rw [hred, close_after_update_trades cfg.POLYMARKET_FEE db t p p "LOST"
      "Price dropped below threshold" now hnd ht] at ht'
    have heq := mem_map_id_unique _
      (fun s => by rw [closeRow_id, updateRow_id]) db.trades hnd t ht t'
      ht' hid
    rw [heq]
    unfold closeRow
    rw [if_pos (updateRow_id t.id p t)]
    exact ⟨rfl, rfl, rfl⟩
  · intro h80 h99 t' ht' hid
    have h99n : ¬ (99 / 100 ≤ p) := not_le.mpr h99
    have h80n : ¬ (p < 80 / 100) := not_lt.mpr h80
    have hred : update_one cfg db t (some p) now =
        update_trade_price db t.id p := by
      simp [update_one, hpne, h99n, h80n]
    rw [hred] at ht'
    simp only [update_trade_price] at ht'
    have heq := mem_map_id_unique (updateRow t.id p) (updateRow_id t.id p)
      db.trades hnd t ht t' ht' hid
    rw [heq, updateRow_self p t hopen]
    exact ⟨hopen, rfl, rfl, rfl, rfl, rfl⟩
  · by_cases h99 : 99 / 100 ≤ p
    · have hred : update_one cfg db t (some p) now =
          close_trade cfg.POLYMARKET_FEE (update_trade_price db t.id p) t.id 1
            "WON" "Market resolved to YES" now := by
        simp [update_one, hpne, h99]
      simp only [hred, close_after_update_trades cfg.POLYMARKET_FEE db t p 1
        "WON" "Market resolved to YES" now hnd ht]
      exact ⟨_, List.mem_map_of_mem _ ht, by rw [closeRow_id, updateRow_id]⟩
    · by_cases h80 : p < 80 / 100
      · have hred : update_one cfg db t (some p) now =
            close_trade cfg.POLYMARKET_FEE (update_trade_price db t.id p) t.id
              p "LOST" "Price dropped below threshold" now := by
          simp [update_one, hpne, h99, h80]
        simp only [hred, close_after_update_trades cfg.POLYMARKET_FEE db t p p
          "LOST" "Price dropped below threshold" now hnd ht]
        exact ⟨_, List.mem_map_of_mem _ ht, by rw [closeRow_id, updateRow_id]⟩
      · have hred : update_one cfg db t (some p) now =
            update_trade_price db t.id p := by
          simp [update_one, hpne, h99, h80]
        simp only [hred, update_trade_price]
        exact ⟨updateRow t.id p t, List.mem_map_of_mem _ ht,
          updateRow_id t.id p t⟩

/-- Witness for C5's amended theorem at the winning boundary p = 1. -/
theorem settlement_threshold_boundaries_witness :
    ((sampleDB.trades.map Trade.id).Nodup ∧
      sampleOpenTrade ∈ sampleDB.trades ∧
      sampleOpenTrade.status = Status.OPEN ∧
      (0 : ℚ) < 1 ∧ (1 : ℚ) ≤ 1) ∧
    (∃ t' ∈ (update_one config sampleDB sampleOpenTrade (some 1) 7).trades,
      t'.id = sampleOpenTrade.id) :=
  ⟨⟨by decide, by simp [sampleDB], rfl, by norm_num, by norm_num⟩,
    (settlement_threshold_boundaries config sampleDB sampleOpenTrade 1 7
      (by decide) (by simp [sampleDB]) rfl (by norm_num) (by norm_num)).2.2.2⟩
